import Mathlib

/-!
Shallow embedding of `treasure-hunt-game.py`: a grid-based treasure hunt
game (class `TreasureHuntGame` plus the high-score helpers).  Python's
mutable object state becomes explicit state passing on a `GameState`
structure; randomness (`random.randint`) and wall-clock values
(`datetime.now`) become explicit parameters; file I/O becomes values of
`Option` types (`none` = missing or unparsable file).
-/

namespace TreasureHunt

/-- Grid cell markers, as stored in `self.grid`: `' '` (empty), `'T'`
(treasure), `'X'` (trap), `'K'` (key), `'S'` (shield), `'M'` (map),
`'E'` (exit). -/
inductive Cell where
  | empty
  | treasure
  | trap
  | key
  | shield
  | mapItem
  | exit
deriving DecidableEq, Repr

/-- The character shown for a cell when it is visible (the grid stores
these one-character strings in the Python source). -/
def Cell.symbol : Cell → String
  | .empty => " "
  | .treasure => "T"
  | .trap => "X"
  | .key => "K"
  | .shield => "S"
  | .mapItem => "M"
  | .exit => "E"

/-- The `self.inventory` dictionary: counts for `"keys"`, `"shields"`,
`"maps"`, plus the dynamically added `"used_map"` entry, read elsewhere
with `inventory.get("used_map", False)` (so it defaults to `false`). -/
structure Inventory where
  keys : Nat
  shields : Nat
  maps : Nat
  usedMap : Bool := false
deriving DecidableEq, Repr

/-- The mutable state of a `TreasureHuntGame` instance.  `startTime` is
the instant `datetime.now()` captured by `__init__`, modelled as an
abstract `Nat` timestamp.  Log entries keep the event text; the
`"[HH:MM:SS] "` wall-clock prefix added by `_log_event` is real time and
is abstracted away. -/
structure GameState where
  playerName : String
  gridSize : Nat
  score : Int
  moves : Nat
  gameOver : Bool
  startTime : Nat
  grid : List (List Cell)
  playerPos : Nat × Nat
  inventory : Inventory
  gameLog : List String
deriving DecidableEq, Repr

/-- `_log_event`: append an event to the game log. -/
def logEvent (s : GameState) (event : String) : GameState :=
  { s with gameLog := s.gameLog ++ [event] }

/-- Read `self.grid[p[0]][p[1]]` (out-of-range reads default to empty;
the game only indexes in-bounds positions). -/
def getCell (g : List (List Cell)) (p : Nat × Nat) : Cell :=
  (g.getD p.1 []).getD p.2 Cell.empty

/-- Write `self.grid[p[0]][p[1]] = v`. -/
def setCell (g : List (List Cell)) (p : Nat × Nat) (v : Cell) : List (List Cell) :=
  g.set p.1 ((g.getD p.1 []).set p.2 v)

/-- The four movement commands accepted by `move_player`. -/
inductive Direction where
  | up
  | down
  | left
  | right
deriving DecidableEq, Repr

/-- The direction string as it appears in commands and log messages. -/
def dirName : Direction → String
  | .up => "up"
  | .down => "down"
  | .left => "left"
  | .right => "right"

/-- Render a position the way the f-strings do: `(r, c)`. -/
def posString (p : Nat × Nat) : String :=
  "(" ++ toString p.1 ++ ", " ++ toString p.2 ++ ")"

/-- `_handle_item_interaction(item, position)`: the per-cell effect of
stepping onto `position` whose content is `item`.  Every consumable cell
is cleared to empty; the exit cell is never cleared. -/
def handleItemInteraction (s : GameState) (item : Cell) (p : Nat × Nat) : GameState :=
  match item with
  | .empty => s
  | .treasure =>
    let s1 := logEvent { s with score := s.score + 100 }
      ("Found treasure at " ++ posString p)
    { s1 with grid := setCell s1.grid p Cell.empty }
  | .trap =>
    let s1 :=
      if 0 < s.inventory.shields then
        logEvent { s with inventory := { s.inventory with shields := s.inventory.shields - 1 } }
          ("Shield used against trap at " ++ posString p)
      else
        logEvent { s with score := s.score - 50 }
          ("Hit by trap at " ++ posString p)
    { s1 with grid := setCell s1.grid p Cell.empty }
  | .key =>
    let s1 := logEvent { s with inventory := { s.inventory with keys := s.inventory.keys + 1 } }
      ("Found key at " ++ posString p)
    { s1 with grid := setCell s1.grid p Cell.empty }
  | .shield =>
    let s1 := logEvent { s with inventory := { s.inventory with shields := s.inventory.shields + 1 } }
      ("Found shield at " ++ posString p)
    { s1 with grid := setCell s1.grid p Cell.empty }
  | .mapItem =>
    let s1 := logEvent { s with inventory := { s.inventory with maps := s.inventory.maps + 1 } }
      ("Found map at " ++ posString p)
    { s1 with grid := setCell s1.grid p Cell.empty }
  | .exit =>
    if 1 ≤ s.inventory.keys then
      let s1 := logEvent { s with score := s.score + 200 }
        "Reached exit with key - Victory!"
      { s1 with gameOver := true }
    else
      logEvent s "Found exit but no key"

/-- The `if/elif` guard chain of `move_player`: `some` of the new
position when the direction's bound check passes, `none` when the move
falls through to the failing `else` branch.  The checks are exactly the
source's: `up` needs `player_pos[0] > 0`, `down` needs
`player_pos[0] < grid_size - 1`, and symmetrically for columns. -/
def moveTarget (s : GameState) (d : Direction) : Option (Nat × Nat) :=
  match d with
  | .up => if 0 < s.playerPos.1 then some (s.playerPos.1 - 1, s.playerPos.2) else none
  | .down => if s.playerPos.1 < s.gridSize - 1 then some (s.playerPos.1 + 1, s.playerPos.2) else none
  | .left => if 0 < s.playerPos.2 then some (s.playerPos.1, s.playerPos.2 - 1) else none
  | .right => if s.playerPos.2 < s.gridSize - 1 then some (s.playerPos.1, s.playerPos.2 + 1) else none

/-- `move_player(direction)`: on a failed bound check, log
`"Invalid move: ..."` and return `False` with no other change; otherwise
increment `moves`, resolve the interaction with the destination cell,
commit the new position, log `"Moved ... to position (r, c)"`, and
return `True`. -/
def movePlayer (s : GameState) (d : Direction) : Bool × GameState :=
  match moveTarget s d with
  | none => (false, logEvent s ("Invalid move: " ++ dirName d))
  | some p =>
    let s1 := { s with moves := s.moves + 1 }
    let item := getCell s1.grid p
    let s2 := handleItemInteraction s1 item p
    let s3 := logEvent { s2 with playerPos := p }
      ("Moved " ++ dirName d ++ " to position " ++ posString p)
    (true, s3)

/-- The movement part of the main loop in `play_game`: `while not
game.game_over:` dispatches each movement command to `move_player`; once
`game_over` is true the loop body never runs again. -/
def runMoves (s : GameState) (ds : List Direction) : GameState :=
  match ds with
  | [] => s
  | d :: rest => if s.gameOver then s else runMoves (movePlayer s d).2 rest

/-- One row of the grid rendering in `display_grid`: the player's own
cell shows `"P"`, otherwise the cell is shown when `reveal_all` is set,
or when it is within Chebyshev distance 1 of the player or a map is in
use; hidden cells show `"?"`. -/
def renderRow (s : GameState) (revealAll : Bool) (i : Nat) : String :=
  (List.range s.gridSize).foldl
    (fun row j =>
      if (i, j) = s.playerPos then
        row ++ "P "
      else if revealAll then
        row ++ (getCell s.grid (i, j)).symbol ++ " "
      else
        let isAdjacent := i - s.playerPos.1 ≤ 1 ∧ s.playerPos.1 - i ≤ 1 ∧
          j - s.playerPos.2 ≤ 1 ∧ s.playerPos.2 - j ≤ 1
        if isAdjacent ∨ s.inventory.usedMap then
          row ++ (getCell s.grid (i, j)).symbol ++ " "
        else
          row ++ "? ")
    (toString i ++ " ")

/-- `display_grid(reveal_all)`: produce the printed lines (header, score
line, inventory line, column numbers, then one line per row) and the
state after the call.  The method only reads `self`; no statement in its
body assigns to any field, so the resulting state is the input state. -/
def displayGrid (s : GameState) (revealAll : Bool) : List String × GameState :=
  let header := s.playerName ++ "'s Treasure Hunt Adventure"
  let scoreLine := "Score: " ++ toString s.score ++ " | Moves: " ++ toString s.moves
  let invLine := "Inventory: Keys: " ++ toString s.inventory.keys ++
    " | Shields: " ++ toString s.inventory.shields ++
    " | Maps: " ++ toString s.inventory.maps
  let colNumbers := "  " ++ String.intercalate " " ((List.range s.gridSize).map toString)
  let rows := (List.range s.gridSize).map (renderRow s revealAll)
  ([header, scoreLine, invLine, colNumbers] ++ rows, s)

/-- The dictionary `game_data` written by `save_game` (as JSON): the
saved fields are exactly these; `game_over` and `start_time` are not
among them.  `savedAt` is the `"saved_at"` timestamp string. -/
structure SaveData where
  playerName : String
  gridSize : Nat
  score : Int
  moves : Nat
  playerPos : Nat × Nat
  grid : List (List Cell)
  inventory : Inventory
  gameLog : List String
  savedAt : String
deriving DecidableEq, Repr

/-- `save_game`: serialize the current state (plus the save timestamp)
to the save file.  JSON encoding/decoding of this record is modelled as
the identity on `SaveData`. -/
def saveGame (s : GameState) (now : String) : SaveData :=
  { playerName := s.playerName
    gridSize := s.gridSize
    score := s.score
    moves := s.moves
    playerPos := s.playerPos
    grid := s.grid
    inventory := s.inventory
    gameLog := s.gameLog
    savedAt := now }

/-- `__init__(player_name, grid_size)`: fresh state with score 0, moves
0, `game_over = False`, `start_time = now`, empty inventory, and the log
holding the `"Game started"` entry.  The random player start position
and the randomly placed grid (`_place_items` rejection sampling) are
abstracted as the parameters `startPos` and `placedGrid`. -/
def newGame (name : String) (gridSize : Nat) (startPos : Nat × Nat)
    (placedGrid : List (List Cell)) (now : Nat) : GameState :=
  { playerName := name
    gridSize := gridSize
    score := 0
    moves := 0
    gameOver := false
    startTime := now
    grid := placedGrid
    playerPos := startPos
    inventory := { keys := 0, shields := 0, maps := 0 }
    gameLog := ["Game started"] }

/-- The successful branch of `load_game`: construct a fresh instance via
the constructor (`cls(name, grid_size)`, run at load time `now` with its
own random placement), then overwrite score, moves, position, grid,
inventory and log with the loaded values, and append the
`"Game loaded from ..."` log entry. -/
def loadGameState (d : SaveData) (startPos : Nat × Nat)
    (placedGrid : List (List Cell)) (now : Nat) (filename : String) : GameState :=
  let g := newGame d.playerName d.gridSize startPos placedGrid now
  logEvent
    { g with
      score := d.score
      moves := d.moves
      playerPos := d.playerPos
      grid := d.grid
      inventory := d.inventory
      gameLog := d.gameLog }
    ("Game loaded from " ++ filename)

/-- `load_game(filename)`: reading the file yields `none` when the file
is missing or unparsable (`FileNotFoundError` / `json.JSONDecodeError`),
in which case the function returns `None`; otherwise it rebuilds the
state from the parsed data. -/
def loadGame (data : Option SaveData) (startPos : Nat × Nat)
    (placedGrid : List (List Cell)) (now : Nat) (filename : String) : Option GameState :=
  match data with
  | none => none
  | some d => some (loadGameState d startPos placedGrid now filename)

/-- One record of the high-score file: `{"player", "score", "date"}`. -/
structure ScoreEntry where
  player : String
  score : Int
  date : String
deriving DecidableEq, Repr

/-- The descending-score order used by
`high_scores.sort(key=lambda x: x["score"], reverse=True)`. -/
def scoreDesc (a b : ScoreEntry) : Prop := b.score ≤ a.score

instance : DecidableRel scoreDesc := fun a b => Int.decLe b.score a.score

instance : IsTotal ScoreEntry scoreDesc := ⟨fun a b => le_total b.score a.score⟩

instance : IsTrans ScoreEntry scoreDesc := ⟨fun _ _ _ h1 h2 => le_trans h2 h1⟩

/-- `check_high_scores(player_name, score, filename)`: load the existing
list (empty when the file is missing or corrupt, i.e. `none`), append
the new entry dated `date`, sort by score descending (Python's sort is
stable; `List.insertionSort` with `scoreDesc` keeps equal scores in
their original order too), keep the top 5, write them back, and return
whether any surviving entry has this player name and score.  The result
pair is (returned boolean, persisted list). -/
def checkHighScores (name : String) (score : Int) (date : String)
    (file : Option (List ScoreEntry)) : Bool × List ScoreEntry :=
  let highScores := file.getD []
  let appended := highScores ++ [{ player := name, score := score, date := date }]
  let top5 := (List.insertionSort scoreDesc appended).take 5
  (top5.any (fun e => e.player == name && e.score == score), top5)

/-- A sequence of `check_high_scores` calls against the same file: each
call reads the file left by the previous one and persists its top-5
list. -/
def recordAll : List (String × Int × String) → Option (List ScoreEntry) → Option (List ScoreEntry)
  | [], file => file
  | c :: cs, file => recordAll cs (some (checkHighScores c.1 c.2.1 c.2.2 file).2)

/-! Helper lemmas about grid reads after a write, and concrete states
used by witnesses. -/

lemma getD_set_empty_self (row : List Cell) (j : Nat) :
    (row.set j Cell.empty).getD j Cell.empty = Cell.empty := by
  by_cases h : j < row.length
  · rw [List.getD_eq_getElem?_getD, List.getElem?_set_self h, Option.getD_some]
  · rw [List.set_eq_of_length_le (le_of_not_lt h),
      List.getD_eq_default _ _ (le_of_not_lt h)]

lemma getCell_setCell_self (g : List (List Cell)) (p : Nat × Nat) :
    getCell (setCell g p Cell.empty) p = Cell.empty := by
  unfold getCell setCell
  simp only [List.getD_eq_getElem?_getD]
  by_cases h : p.1 < g.length
  · rw [List.getElem?_set_self h, Option.getD_some]
    by_cases h2 : p.2 < (g[p.1]?.getD []).length
    · rw [List.getElem?_set_self h2, Option.getD_some]
    · rw [List.set_eq_of_length_le (le_of_not_lt h2),
        List.getElem?_eq_none (le_of_not_lt h2), Option.getD_none]
  · rw [List.set_eq_of_length_le (le_of_not_lt h),
      List.getElem?_eq_none (le_of_not_lt h), Option.getD_none,
      List.getElem?_nil, Option.getD_none]

lemma getCell_setCell_of_empty (g : List (List Cell)) (q p : Nat × Nat)
    (h : getCell g p = Cell.empty) :
    getCell (setCell g q Cell.empty) p = Cell.empty := by
  unfold getCell setCell at *
  simp only [List.getD_eq_getElem?_getD] at h ⊢
  by_cases h1 : q.1 = p.1
  · rw [h1]
    by_cases hl : p.1 < g.length
    · rw [List.getElem?_set_self hl, Option.getD_some]
      by_cases h2 : q.2 = p.2
      · rw [h2]
        by_cases hr : p.2 < (g[p.1]?.getD []).length
        · rw [List.getElem?_set_self hr, Option.getD_some]
        · rw [List.set_eq_of_length_le (le_of_not_lt hr),
            List.getElem?_eq_none (le_of_not_lt hr), Option.getD_none]
      · rw [List.getElem?_set_ne h2]
        exact h
    · rw [List.set_eq_of_length_le (le_of_not_lt hl)]
      exact h
  · rw [List.getElem?_set_ne h1]
    exact h

/-- Stepping onto any cell never turns an empty cell non-empty: every
interaction branch either leaves the grid alone or clears a cell. -/
lemma handleItemInteraction_empty_preserved (s : GameState) (item : Cell)
    (q p : Nat × Nat) (h : getCell s.grid p = Cell.empty) :
    getCell (handleItemInteraction s item q).grid p = Cell.empty := by
  cases item with
  | empty => exact h
  | treasure => simpa [handleItemInteraction, logEvent] using
      getCell_setCell_of_empty s.grid q p h
  | trap =>
    simp only [handleItemInteraction, logEvent]
    split <;> exact getCell_setCell_of_empty s.grid q p h
  | key => simpa [handleItemInteraction, logEvent] using
      getCell_setCell_of_empty s.grid q p h
  | shield => simpa [handleItemInteraction, logEvent] using
      getCell_setCell_of_empty s.grid q p h
  | mapItem => simpa [handleItemInteraction, logEvent] using
      getCell_setCell_of_empty s.grid q p h
  | exit =>
    simp only [handleItemInteraction, logEvent]
    split <;> exact h

/-- Any move (successful or not) keeps an empty cell empty. -/
lemma movePlayer_empty_preserved (s : GameState) (d : Direction)
    (p : Nat × Nat) (h : getCell s.grid p = Cell.empty) :
    getCell (movePlayer s d).2.grid p = Cell.empty := by
  rcases hmt : moveTarget s d with _ | q
  · simpa [movePlayer, hmt, logEvent] using h
  · simp only [movePlayer, hmt, logEvent]
    exact handleItemInteraction_empty_preserved _ _ _ _ h

/-! Concrete states used by the witness theorems. -/

/-- A concrete 2 × 2 grid: exit at (0,1), treasure at (1,0), trap at (1,1). -/
def sampleGrid : List (List Cell) :=
  [[Cell.empty, Cell.exit], [Cell.treasure, Cell.trap]]

/-- A concrete game state: player at the origin of `sampleGrid`. -/
def sampleState : GameState :=
  { playerName := "Ada"
    gridSize := 2
    score := 0
    moves := 0
    gameOver := false
    startTime := 0
    grid := sampleGrid
    playerPos := (0, 0)
    inventory := { keys := 0, shields := 0, maps := 0 }
    gameLog := [] }

/-- Like `sampleState` but holding one key. -/
def sampleStateKey : GameState :=
  { sampleState with inventory := { keys := 1, shields := 0, maps := 0 } }

/-- Like `sampleState` but with the game already over. -/
def sampleStateOver : GameState :=
  { sampleState with gameOver := true }

/-- Player at (0,1) with one shield; moving down lands on the trap. -/
def sampleStateShield : GameState :=
  { sampleState with
    playerPos := (0, 1)
    inventory := { keys := 0, shields := 1, maps := 0 } }

/-- Player at (0,1) with no shield; moving down lands on the trap. -/
def sampleStateNoShield : GameState :=
  { sampleState with playerPos := (0, 1) }

/-- Player at (1,0) below an empty cell at (0,0). -/
def sampleStateEmptyTarget : GameState :=
  { sampleState with
    playerPos := (1, 0)
    grid := [[Cell.empty, Cell.exit], [Cell.empty, Cell.trap]] }

/-! The claims. -/

/-- C2: when a move's bound check fails (the target square would be
outside the grid), `move_player` returns `False` and the only change to
the state is the `"Invalid move: ..."` log entry: position, score,
moves, grid and inventory are untouched. -/
theorem move_out_of_bounds (s : GameState) (d : Direction)
    (h : moveTarget s d = none) :
    (movePlayer s d).1 = false ∧
    (movePlayer s d).2 =
      { s with gameLog := s.gameLog ++ ["Invalid move: " ++ dirName d] } := by
  simp [movePlayer, h, logEvent]

/-- Witness for C2: moving up from row 0 fails and only logs. -/
theorem move_out_of_bounds_witness :
    (movePlayer sampleState Direction.up).1 = false ∧
    (movePlayer sampleState Direction.up).2 =
      { sampleState with
        gameLog := sampleState.gameLog ++ ["Invalid move: " ++ dirName Direction.up] } :=
  move_out_of_bounds sampleState Direction.up rfl

/-- C5: saving a state and loading the saved data back yields a state
with the same score, moves counter, player position, inventory and grid
contents as the state that was saved. -/
theorem save_load_roundtrip (s : GameState) (now : String)
    (startPos : Nat × Nat) (placedGrid : List (List Cell)) (t : Nat)
    (filename : String) :
    (loadGameState (saveGame s now) startPos placedGrid t filename).score = s.score ∧
    (loadGameState (saveGame s now) startPos placedGrid t filename).moves = s.moves ∧
    (loadGameState (saveGame s now) startPos placedGrid t filename).playerPos = s.playerPos ∧
    (loadGameState (saveGame s now) startPos placedGrid t filename).inventory = s.inventory ∧
    (loadGameState (saveGame s now) startPos placedGrid t filename).grid = s.grid ∧
    loadGame (some (saveGame s now)) startPos placedGrid t filename =
      some (loadGameState (saveGame s now) startPos placedGrid t filename) :=
  ⟨rfl, rfl, rfl, rfl, rfl, rfl⟩

/-- C8: when the save file is missing or unparsable (modelled as `none`
read data, covering `FileNotFoundError` and `json.JSONDecodeError`),
`load_game` returns `None` rather than propagating an exception. -/
theorem load_missing_returns_none (startPos : Nat × Nat)
    (placedGrid : List (List Cell)) (t : Nat) (filename : String) :
    loadGame none startPos placedGrid t filename = none :=
  rfl

/-- C9: rendering the grid (with either value of `reveal_all`) returns
the game state unchanged: `display_grid` only reads fields. -/
theorem display_grid_pure (s : GameState) (revealAll : Bool) :
    (displayGrid s revealAll).2 = s :=
  rfl

/-- C10: the saved record contains neither `game_over` nor
`start_time` — saving is insensitive to both fields — and a loaded game
always has `game_over = False` and the load-time `start_time` (both come
from the fresh constructor call, not from the file), so elapsed time
restarts from the moment of loading. -/
theorem save_omits_game_over_and_start_time (s : GameState) (now : String)
    (b : Bool) (t0 : Nat) (d : SaveData) (startPos : Nat × Nat)
    (placedGrid : List (List Cell)) (t : Nat) (filename : String) :
    saveGame { s with gameOver := b, startTime := t0 } now = saveGame s now ∧
    (loadGameState d startPos placedGrid t filename).gameOver = false ∧
    (loadGameState d startPos placedGrid t filename).startTime = t :=
  ⟨rfl, rfl, rfl⟩

/-- C1: stepping onto the exit cell with no key succeeds as a move
(position committed, moves incremented) but leaves `game_over` and the
score unchanged; with at least one key it adds 200 points and sets
`game_over`; and the 200 points are added only once, because the main
loop (`runMoves`) stops processing moves as soon as `game_over` is
true. -/
theorem exit_cell_effects (s : GameState) (d : Direction) (p : Nat × Nat)
    (ds : List Direction) :
    (moveTarget s d = some p → getCell s.grid p = Cell.exit →
      s.inventory.keys = 0 →
      (movePlayer s d).1 = true ∧
      (movePlayer s d).2.gameOver = s.gameOver ∧
      (movePlayer s d).2.score = s.score ∧
      (movePlayer s d).2.playerPos = p ∧
      (movePlayer s d).2.moves = s.moves + 1) ∧
    (moveTarget s d = some p → getCell s.grid p = Cell.exit →
      1 ≤ s.inventory.keys →
      (movePlayer s d).1 = true ∧
      (movePlayer s d).2.gameOver = true ∧
      (movePlayer s d).2.score = s.score + 200 ∧
      (movePlayer s d).2.moves = s.moves + 1) ∧
    (s.gameOver = true → runMoves s ds = s) := by
  refine ⟨?_, ?_, ?_⟩
  · intro hmt hc hk
    simp [movePlayer, hmt, handleItemInteraction, logEvent, hc, hk]
  · intro hmt hc hk
    simp [movePlayer, hmt, handleItemInteraction, logEvent, hc, hk]
  · intro hg
    cases ds with
    | nil => rfl
    | cons d rest => simp [runMoves, hg]

/-- Witness for C1: on `sampleGrid`, moving right onto the exit with no
key changes neither `game_over` nor the score; with one key it ends the
game with 200 extra points; and once the game is over `runMoves`
processes nothing. -/
theorem exit_cell_effects_witness :
    ((movePlayer sampleState Direction.right).1 = true ∧
     (movePlayer sampleState Direction.right).2.gameOver = sampleState.gameOver ∧
     (movePlayer sampleState Direction.right).2.score = sampleState.score ∧
     (movePlayer sampleState Direction.right).2.playerPos = (0, 1) ∧
     (movePlayer sampleState Direction.right).2.moves = sampleState.moves + 1) ∧
    ((movePlayer sampleStateKey Direction.right).1 = true ∧
     (movePlayer sampleStateKey Direction.right).2.gameOver = true ∧
     (movePlayer sampleStateKey Direction.right).2.score = sampleStateKey.score + 200 ∧
     (movePlayer sampleStateKey Direction.right).2.moves = sampleStateKey.moves + 1) ∧
    runMoves sampleStateOver [Direction.up] = sampleStateOver :=
  ⟨(exit_cell_effects sampleState Direction.right (0, 1) []).1
      (by decide) (by decide) (by decide),
   (exit_cell_effects sampleStateKey Direction.right (0, 1) []).2.1
      (by decide) (by decide) (by decide),
   (exit_cell_effects sampleStateOver Direction.up (0, 1) [Direction.up]).2.2
      (by decide)⟩

/-- C3: stepping onto a trap with at least one shield consumes one
shield and leaves the score alone; with no shield it costs 50 points;
either way the trap cell is cleared to empty. -/
theorem trap_interaction (s : GameState) (d : Direction) (p : Nat × Nat)
    (h : moveTarget s d = some p) (hc : getCell s.grid p = Cell.trap) :
    (0 < s.inventory.shields →
      (movePlayer s d).2.inventory.shields = s.inventory.shields - 1 ∧
      (movePlayer s d).2.score = s.score) ∧
    (s.inventory.shields = 0 →
      (movePlayer s d).2.score = s.score - 50 ∧
      (movePlayer s d).2.inventory.shields = 0) ∧
    getCell (movePlayer s d).2.grid p = Cell.empty := by
  refine ⟨?_, ?_, ?_⟩
  · intro hs
    simp [movePlayer, h, handleItemInteraction, logEvent, hc, hs]
  · intro hs
    simp [movePlayer, h, handleItemInteraction, logEvent, hc, hs]
  · simp [movePlayer, h, handleItemInteraction, logEvent, hc,
      getCell_setCell_self]

/-- Witness for C3: on `sampleGrid`, stepping down onto the trap with
one shield costs the shield and no points; with no shield it costs 50
points; the trap cell ends up empty. -/
theorem trap_interaction_witness :
    ((movePlayer sampleStateShield Direction.down).2.inventory.shields =
        sampleStateShield.inventory.shields - 1 ∧
     (movePlayer sampleStateShield Direction.down).2.score = sampleStateShield.score) ∧
    ((movePlayer sampleStateNoShield Direction.down).2.score =
        sampleStateNoShield.score - 50 ∧
     (movePlayer sampleStateNoShield Direction.down).2.inventory.shields = 0) ∧
    getCell (movePlayer sampleStateShield Direction.down).2.grid (1, 1) = Cell.empty :=
  ⟨(trap_interaction sampleStateShield Direction.down (1, 1)
      (by decide) (by decide)).1 (by decide),
   (trap_interaction sampleStateNoShield Direction.down (1, 1)
      (by decide) (by decide)).2.1 rfl,
   (trap_interaction sampleStateShield Direction.down (1, 1)
      (by decide) (by decide)).2.2⟩

/-- C4: a successful move onto a treasure cell scores exactly 100 and
clears the cell; an empty cell stays empty across every further move
(so the clearing is permanent); and a move onto an empty cell changes
neither score nor inventory. -/
theorem treasure_cell_permanent (s : GameState) (d : Direction) (p : Nat × Nat) :
    (moveTarget s d = some p → getCell s.grid p = Cell.treasure →
      (movePlayer s d).1 = true ∧
      (movePlayer s d).2.score = s.score + 100 ∧
      getCell (movePlayer s d).2.grid p = Cell.empty) ∧
    (getCell s.grid p = Cell.empty →
      getCell (movePlayer s d).2.grid p = Cell.empty) ∧
    (moveTarget s d = some p → getCell s.grid p = Cell.empty →
      (movePlayer s d).2.score = s.score ∧
      (movePlayer s d).2.inventory = s.inventory) := by
  refine ⟨?_, ?_, ?_⟩
  · intro hmt hc
    refine ⟨?_, ?_, ?_⟩
    · simp [movePlayer, hmt]
    · simp [movePlayer, hmt, hc, handleItemInteraction, logEvent]
    · simp [movePlayer, hmt, hc, handleItemInteraction, logEvent,
        getCell_setCell_self]
  · exact movePlayer_empty_preserved s d p
  · intro hmt hc
    simp [movePlayer, hmt, hc, handleItemInteraction, logEvent]

/-- Witness for C4: on `sampleGrid`, moving down onto the treasure
scores 100 and empties the cell; the empty cell (0,0) stays empty across
a move; moving onto an empty cell leaves score and inventory as they
were. -/
theorem treasure_cell_permanent_witness :
    ((movePlayer sampleState Direction.down).1 = true ∧
     (movePlayer sampleState Direction.down).2.score = sampleState.score + 100 ∧
     getCell (movePlayer sampleState Direction.down).2.grid (1, 0) = Cell.empty) ∧
    getCell (movePlayer sampleState Direction.down).2.grid (0, 0) = Cell.empty ∧
    ((movePlayer sampleStateEmptyTarget Direction.up).2.score =
        sampleStateEmptyTarget.score ∧
     (movePlayer sampleStateEmptyTarget Direction.up).2.inventory =
        sampleStateEmptyTarget.inventory) :=
  ⟨(treasure_cell_permanent sampleState Direction.down (1, 0)).1
      (by decide) (by decide),
   (treasure_cell_permanent sampleState Direction.down (0, 0)).2.1 (by decide),
   (treasure_cell_permanent sampleStateEmptyTarget Direction.up (0, 0)).2.2
      (by decide) (by decide)⟩

/-- Any single `check_high_scores` call persists a list of at most 5
entries, sorted descending by score. -/
lemma checkHighScores_out_invariant (name : String) (score : Int)
    (date : String) (file : Option (List ScoreEntry)) :
    (checkHighScores name score date file).2.length ≤ 5 ∧
    List.Sorted scoreDesc (checkHighScores name score date file).2 := by
  constructor
  · simp only [checkHighScores, List.length_take]
    exact min_le_left _ _
  · exact List.Pairwise.sublist (List.take_sublist _ _)
      (List.sorted_insertionSort scoreDesc _)

/-- A board of five distinct players, all with score 0. -/
def fullBoard : List ScoreEntry :=
  [{ player := "A", score := 0, date := "day1" },
   { player := "B", score := 0, date := "day2" },
   { player := "C", score := 0, date := "day3" },
   { player := "D", score := 0, date := "day4" },
   { player := "E", score := 0, date := "day5" }]

/-- C6: starting from any file state (`none` models a missing or
corrupt file, read as the empty list) and after any non-empty sequence
of `check_high_scores` calls, the persisted leaderboard has at most 5
entries and is sorted descending by score. -/
theorem leaderboard_invariant (calls : List (String × Int × String))
    (file : Option (List ScoreEntry)) (l : List ScoreEntry)
    (hne : calls ≠ []) (hl : recordAll calls file = some l) :
    l.length ≤ 5 ∧ List.Sorted scoreDesc l := by
  induction calls generalizing file with
  | nil => exact absurd rfl hne
  | cons c cs ih =>
    cases cs with
    | nil =>
      have hl' : (checkHighScores c.1 c.2.1 c.2.2 file).2 = l :=
        Option.some.inj hl
      rw [← hl']
      exact checkHighScores_out_invariant c.1 c.2.1 c.2.2 file
    | cons c2 cs2 =>
      exact ih _ (List.cons_ne_nil c2 cs2) hl

/-- Witness for C6: one call on a missing file persists a singleton,
which has at most 5 entries and is sorted. -/
theorem leaderboard_invariant_witness :
    ([{ player := "A", score := 10, date := "day1" }] : List ScoreEntry).length ≤ 5 ∧
    List.Sorted scoreDesc [{ player := "A", score := 10, date := "day1" }] :=
  leaderboard_invariant [("A", 10, "day1")] none
    [{ player := "A", score := 10, date := "day1" }] (by simp) rfl

/-- C7 counterexample: with five existing score-0 entries, recording a
new score-0 entry for player "A" returns `True` even though the new
entry itself (dated "day6") was truncated away: the `True` comes from
the matching older "A" entry, refuting the claim that the flag is true
iff the newly appended entry survived. -/
theorem highscore_flag_counterexample :
    (checkHighScores "A" 0 "day6" (some fullBoard)).1 = true ∧
    ({ player := "A", score := 0, date := "day6" } : ScoreEntry) ∉
      (checkHighScores "A" 0 "day6" (some fullBoard)).2 := by
  decide

/-- C7 amended: the returned boolean is true iff the persisted top-5
list contains some entry whose player name and score equal the call's
arguments (not necessarily the newly appended entry itself). -/
theorem highscore_flag_iff (name : String) (score : Int) (date : String)
    (file : Option (List ScoreEntry)) :
    (checkHighScores name score date file).1 = true ↔
      ∃ e ∈ (checkHighScores name score date file).2,
        e.player = name ∧ e.score = score := by
  simp only [checkHighScores, List.any_eq_true, Bool.and_eq_true, beq_iff_eq]

end TreasureHunt
